import Mathlib

set_option maxRecDepth 10000

/-!
Verification of the symptom-story app's data-access layer.

The data model and the row-level security (RLS) policies are embedded from
the SQL migration; the client-side operations (signup, chat send, realtime
subscription handler, symptom lookup) are embedded from the TypeScript
views.  Identities and row ids are modelled as `Nat`, timestamps as `Nat`,
text as `String`.
-/

/-- The `app_role` enum from the migration: `('patient', 'doctor')`. -/
inductive AppRole
  | patient
  | doctor
deriving DecidableEq, Repr

/-- A row of `public.profiles`: id (same as identity), full_name, role. -/
structure Profile where
  id : Nat
  full_name : String
  role : AppRole
deriving DecidableEq, Repr

/-- A row of `public.user_roles`: id, user_id, role. -/
structure RoleGrant where
  id : Nat
  user_id : Nat
  role : AppRole
deriving DecidableEq, Repr

/-- A row of `public.symptoms`. -/
structure Symptom where
  id : Nat
  patient_id : Nat
  title : String
  description : Option String
  photo_url : Option String
  severity : Option String
  affected_area : Option String
  duration : Option String
deriving DecidableEq, Repr

/-- A row of `public.doctor_notes`. -/
structure DoctorNote where
  id : Nat
  symptom_id : Nat
  doctor_id : Nat
  note : String
  progress_status : Option String
deriving DecidableEq, Repr

/-- A row of `public.messages`. -/
structure Message where
  id : Nat
  sender_id : Nat
  receiver_id : Nat
  content : String
  attachment_url : Option String
  symptom_reference : Option Nat
  read : Bool
  created_at : Nat
deriving DecidableEq, Repr

/-- A row of `public.patient_doctor_assignments`. -/
structure Assignment where
  id : Nat
  patient_id : Nat
  doctor_id : Nat
deriving DecidableEq, Repr

/-- The database state: the six tables of the migration. -/
structure DB where
  profiles : List Profile
  user_roles : List RoleGrant
  symptoms : List Symptom
  doctor_notes : List DoctorNote
  messages : List Message
  assignments : List Assignment
deriving DecidableEq, Repr

/-- The function `public.has_role(_user_id, _role)`: true iff a
`user_roles` row with exactly that (user_id, role) pair exists. -/
def has_role (db : DB) (uid : Nat) (r : AppRole) : Bool :=
  db.user_roles.any (fun g => g.user_id == uid && g.role == r)

/-- Profiles INSERT policy: `WITH CHECK (auth.uid() = id)`. -/
def profiles_insert (uid : Nat) (p : Profile) : Bool :=
  uid == p.id

/-- RLS is enabled on `user_roles` and the migration declares only a SELECT
policy for it, so INSERT against `user_roles` is denied by default for every
requester and row. -/
def user_roles_insert (_uid : Nat) (_g : RoleGrant) : Bool :=
  false

/-- Symptoms SELECT: the disjunction of the two permissive policies,
"Patients can view their own symptoms" (`auth.uid() = patient_id`) and
"Doctors can view assigned patients' symptoms" (`has_role(auth.uid(),
'doctor') AND EXISTS assignment`). -/
def symptoms_select (db : DB) (uid : Nat) (s : Symptom) : Bool :=
  (uid == s.patient_id) ||
  (has_role db uid .doctor &&
    db.assignments.any (fun a => a.patient_id == s.patient_id && a.doctor_id == uid))

/-- Symptoms INSERT policy: `WITH CHECK (auth.uid() = patient_id)`. -/
def symptoms_insert (uid : Nat) (s : Symptom) : Bool :=
  uid == s.patient_id

/-- Symptoms UPDATE policy: `USING (auth.uid() = patient_id)`. -/
def symptoms_update (uid : Nat) (s : Symptom) : Bool :=
  uid == s.patient_id

/-- Symptoms DELETE policy: `USING (auth.uid() = patient_id)`. -/
def symptoms_delete (uid : Nat) (s : Symptom) : Bool :=
  uid == s.patient_id

/-- DoctorNotes INSERT policy "Doctors can insert notes":
`WITH CHECK (has_role(auth.uid(), 'doctor') AND auth.uid() = doctor_id)`. -/
def doctor_notes_insert (db : DB) (uid : Nat) (n : DoctorNote) : Bool :=
  has_role db uid .doctor && uid == n.doctor_id

/-- The insert operation on `doctor_notes` under RLS: the row is appended
iff the INSERT policy accepts it, otherwise the table is unchanged and the
insert reports failure. -/
def insert_doctor_note (db : DB) (uid : Nat) (n : DoctorNote) : DB × Bool :=
  if doctor_notes_insert db uid n then
    ({ db with doctor_notes := db.doctor_notes ++ [n] }, true)
  else
    (db, false)

/-- Messages SELECT policy "Users can view their own messages":
`USING (auth.uid() = sender_id OR auth.uid() = receiver_id)`. -/
def messages_select (uid : Nat) (m : Message) : Bool :=
  uid == m.sender_id || uid == m.receiver_id

/-- Messages INSERT policy: `WITH CHECK (auth.uid() = sender_id)`. -/
def messages_insert (uid : Nat) (m : Message) : Bool :=
  uid == m.sender_id

/-- Messages UPDATE policy "Users can update their received messages":
`USING (auth.uid() = receiver_id)` with no `WITH CHECK`, so the USING
expression is also checked against the updated row. -/
def messages_update (uid : Nat) (oldRow newRow : Message) : Bool :=
  (uid == oldRow.receiver_id) && (uid == newRow.receiver_id)

/-- The rows a SELECT on `messages` returns to identity `uid`. -/
def select_messages (db : DB) (uid : Nat) : List Message :=
  db.messages.filter (fun m => messages_select uid m)

/-- The rows a SELECT on `symptoms` returns to identity `uid`. -/
def select_symptoms (db : DB) (uid : Nat) : List Symptom :=
  db.symptoms.filter (fun s => symptoms_select db uid s)

/-- Deleting the assignment rows linking patient `p` to doctor `d`. -/
def remove_assignment (db : DB) (p d : Nat) : DB :=
  { db with
    assignments := db.assignments.filter
      (fun a => !(a.patient_id == p && a.doctor_id == d)) }

/-- The signup path of `Auth.tsx` after identity creation: it attempts one
`profiles` insert with `id := uid` and one `user_roles` insert with
`user_id := uid`, both as the freshly authenticated identity `uid`; the
pair records whether each insert passes the RLS policy in force.  `gid` is
the database-assigned id of the `user_roles` row. -/
def signup_inserts (uid : Nat) (name : String) (r : AppRole) (gid : Nat) :
    Bool × Bool :=
  (profiles_insert uid { id := uid, full_name := name, role := r },
   user_roles_insert uid { id := gid, user_id := uid, role := r })

/-- An entry of `SymptomFinder.tsx`'s static reference list. -/
structure SymptomInfo where
  name : String
  description : String
  keywords : List String
deriving DecidableEq, Repr

/-- The static `symptomDatabase` list of `SymptomFinder.tsx`, verbatim. -/
def symptomDatabase : List SymptomInfo :=
  [ { name := "Rash",
      description := "A change in skin appearance or texture, often with redness, bumps, or irritation.",
      keywords := ["itchy", "red", "bumps", "skin", "irritation", "hives"] },
    { name := "Fever",
      description := "Elevated body temperature, usually above 100.4°F (38°C), often indicating infection.",
      keywords := ["temperature", "hot", "chills", "sweating", "infection"] },
    { name := "Headache",
      description := "Pain in the head or upper neck, ranging from mild to severe.",
      keywords := ["pain", "head", "migraine", "pressure", "throbbing"] },
    { name := "Cough",
      description := "A reflex action to clear airways of mucus, irritants, or foreign particles.",
      keywords := ["throat", "phlegm", "dry", "productive", "wheeze"] },
    { name := "Fatigue",
      description := "Extreme tiredness or lack of energy that doesn't improve with rest.",
      keywords := ["tired", "exhausted", "weak", "energy", "sleepy"] },
    { name := "Nausea",
      description := "An uncomfortable sensation of wanting to vomit.",
      keywords := ["sick", "stomach", "queasy", "vomit", "upset"] },
    { name := "Swelling",
      description := "Enlargement or puffiness in a body part due to fluid accumulation.",
      keywords := ["puffy", "inflammation", "edema", "enlarged", "bloated"] },
    { name := "Joint Pain",
      description := "Discomfort, aches, or soreness in body joints.",
      keywords := ["arthritis", "stiff", "ache", "knee", "elbow", "shoulder"] } ]

/-- JavaScript's `String.prototype.includes`: substring containment. -/
def str_includes (hay needle : String) : Bool :=
  decide (List.IsInfix needle.toList hay.toList)

/-- JavaScript's `String.prototype.toLowerCase`, character-wise. -/
def js_to_lower (s : String) : String :=
  String.mk (s.toList.map Char.toLower)

/-- JavaScript's `String.prototype.trim`: strip leading and trailing
whitespace. -/
def js_trim (s : String) : String :=
  String.mk
    (((s.toList.dropWhile Char.isWhitespace).reverse.dropWhile
        Char.isWhitespace).reverse)

/-- The filter body of `handleSearch`: the already-lowercased query matches
an entry when the lowercased name, lowercased description, or some
lowercased keyword contains it. -/
def symptom_matches (lowerTerm : String) (s : SymptomInfo) : Bool :=
  str_includes (js_to_lower s.name) lowerTerm ||
  str_includes (js_to_lower s.description) lowerTerm ||
  s.keywords.any (fun k => str_includes (js_to_lower k) lowerTerm)

/-- Function `handleSearch` of `SymptomFinder.tsx`, as the pure function from the
query to the displayed list: a query whose trim is empty yields the whole
list, otherwise the list is filtered by `symptom_matches` against the
lowercased query. -/
def handleSearch (term : String) : List SymptomInfo :=
  if js_trim term = "" then symptomDatabase
  else symptomDatabase.filter (fun s => symptom_matches (js_to_lower term) s)

/-- The realtime INSERT-event filter of `Chat.tsx`'s `subscribeToMessages`:
the delivered row belongs to the open conversation when its sender/receiver
pair is (user, selected doctor) or (selected doctor, user). -/
def conversation_match (uid doc : Nat) (m : Message) : Bool :=
  (m.sender_id == uid && m.receiver_id == doc) ||
  (m.sender_id == doc && m.receiver_id == uid)

/-- The subscription callback of `subscribeToMessages`: a delivered INSERT
event appends its row to the in-memory list iff it matches the open
conversation; no deduplication is performed. -/
def on_message_insert (uid doc : Nat) (prev : List Message) (newMsg : Message) :
    List Message :=
  if conversation_match uid doc newMsg then prev ++ [newMsg] else prev

/-- Function `handleSend` of `Chat.tsx` as its effect on the `messages` table: when
the trimmed input is empty or no doctor is selected it returns early and
inserts nothing; otherwise it inserts a row whose content is the trimmed
input, sent from `uid` to the selected doctor.  `freshId` and `now` stand
for the database-assigned id and timestamp of the new row. -/
def handleSend (uid : Nat) (selectedDoctor : Option Nat) (newMessage : String)
    (msgs : List Message) (freshId now : Nat) : List Message :=
  if js_trim newMessage = "" then msgs
  else
    match selectedDoctor with
    | none => msgs
    | some doc =>
        msgs ++ [{ id := freshId, sender_id := uid, receiver_id := doc,
                   content := js_trim newMessage, attachment_url := none,
                   symptom_reference := none, read := false,
                   created_at := now }]

/-! Concrete rows and database states used by counterexamples and
witnesses. -/

/-- A symptom row owned by patient 2. -/
def exSym : Symptom :=
  { id := 10, patient_id := 2, title := "Rash", description := some "arm",
    photo_url := none, severity := none, affected_area := none,
    duration := none }

/-- A database in which identity 1 holds the doctor role, patient 2 owns
`exSym`, and no assignment exists at all. -/
def dbNoAssign : DB :=
  { profiles := [], user_roles := [{ id := 0, user_id := 1, role := .doctor }],
    symptoms := [exSym], doctor_notes := [], messages := [],
    assignments := [] }

/-- A doctor note by doctor 1 against symptom `exSym`. -/
def exNote : DoctorNote :=
  { id := 20, symptom_id := 10, doctor_id := 1, note := "looks stable",
    progress_status := some "stable" }

/-- A database in which identity 1 holds both roles and is assigned as a
doctor to patient 2, who owns `exSym`. -/
def dbAssigned : DB :=
  { profiles := [],
    user_roles := [{ id := 0, user_id := 1, role := .doctor },
                   { id := 1, user_id := 1, role := .patient }],
    symptoms := [exSym], doctor_notes := [], messages := [],
    assignments := [{ id := 0, patient_id := 2, doctor_id := 1 }] }

/-- A message from identity 1 to identity 2. -/
def exMsg : Message :=
  { id := 5, sender_id := 1, receiver_id := 2, content := "hello",
    attachment_url := none, symptom_reference := none, read := false,
    created_at := 0 }

/-- The row `exMsg` after an update by its receiver that edits the content
and sets the read flag. -/
def exMsgEdited : Message :=
  { exMsg with content := "edited", read := true }

/-- A database whose only message is `exMsg`. -/
def dbMsg : DB :=
  { profiles := [], user_roles := [], symptoms := [], doctor_notes := [],
    messages := [exMsg], assignments := [] }

/-- A second role-grant table holding the same (1, doctor) fact plus an
unrelated grant, for the independence part of the has_role claim. -/
def dbOtherGrants : DB :=
  { profiles := [],
    user_roles := [{ id := 5, user_id := 1, role := .doctor },
                   { id := 6, user_id := 2, role := .patient },
                   { id := 7, user_id := 1, role := .patient }],
    symptoms := [], doctor_notes := [], messages := [], assignments := [] }

/-- The first entry of the static reference list. -/
def rashInfo : SymptomInfo :=
  { name := "Rash",
    description := "A change in skin appearance or texture, often with redness, bumps, or irritation.",
    keywords := ["itchy", "red", "bumps", "skin", "irritation", "hives"] }

/-! Helper lemmas shared by the claim theorems. -/

/-- Membership characterisation of `has_role`. -/
theorem has_role_iff (db : DB) (uid : Nat) (r : AppRole) :
    has_role db uid r = true ↔
      ∃ g ∈ db.user_roles, g.user_id = uid ∧ g.role = r := by
  simp [has_role, List.any_eq_true, Bool.and_eq_true, beq_iff_eq]

/-- Membership characterisation of the symptoms SELECT predicate. -/
theorem symptoms_select_iff (db : DB) (uid : Nat) (s : Symptom) :
    symptoms_select db uid s = true ↔
      (uid = s.patient_id ∨
        (has_role db uid .doctor = true ∧
          ∃ a ∈ db.assignments,
            a.patient_id = s.patient_id ∧ a.doctor_id = uid)) := by
  simp [symptoms_select, List.any_eq_true, Bool.and_eq_true, Bool.or_eq_true,
    beq_iff_eq]

/-! Claim theorems. -/

/-- Claim C1, counterexample: identity 1 holds the doctor role and no
Assignment row at all exists, yet the insert of a DoctorNote by 1 against
symptom `exSym` (owned by patient 2) succeeds, contradicting the claim that
such an insert succeeds only when an Assignment links the doctor to the
symptom's owning patient. -/
theorem C1_counterexample :
    (insert_doctor_note dbNoAssign 1 exNote).2 = true ∧
    dbNoAssign.assignments = [] ∧
    exNote.symptom_id = exSym.id ∧
    exSym.patient_id = 2 ∧
    dbNoAssign.symptoms = [exSym] := by
  decide

/-- Claim C1, amended: an insert of a DoctorNote row n by identity D
succeeds iff D holds the doctor role and D equals n's doctor_id — no
Assignment between D and the symptom's owning patient is required; when the
condition fails the insert is rejected and the database (in particular the
DoctorNote table) is unchanged, and when it succeeds the row is appended. -/
theorem C1_insert_note (db : DB) (uid : Nat) (n : DoctorNote) :
    ((insert_doctor_note db uid n).2 = true ↔
      (has_role db uid .doctor = true ∧ uid = n.doctor_id)) ∧
    ((insert_doctor_note db uid n).2 = true →
      (insert_doctor_note db uid n).1.doctor_notes = db.doctor_notes ++ [n]) ∧
    ((insert_doctor_note db uid n).2 = false →
      (insert_doctor_note db uid n).1 = db) := by
  by_cases h : doctor_notes_insert db uid n = true
  · have hc : has_role db uid .doctor = true ∧ uid = n.doctor_id := by
      simpa [doctor_notes_insert, Bool.and_eq_true, beq_iff_eq] using h
    refine ⟨?_, ?_, ?_⟩
    · exact ⟨fun _ => hc, fun _ => by simp [insert_doctor_note, h]⟩
    · intro _; simp [insert_doctor_note, h]
    · intro hf; exfalso; simp [insert_doctor_note, h] at hf
  · have hc : ¬(has_role db uid .doctor = true ∧ uid = n.doctor_id) := by
      intro hx
      apply h
      simp only [doctor_notes_insert, Bool.and_eq_true, beq_iff_eq]
      exact hx
    refine ⟨?_, ?_, ?_⟩
    · simp only [insert_doctor_note, if_neg h]
      simpa using hc
    · intro ht; exfalso; simp [insert_doctor_note, h] at ht
    · intro _; simp [insert_doctor_note, h]

/-- Claim C1, witness: the amended characterisation applied to the concrete
state `dbNoAssign`. -/
theorem C1_insert_note_witness :
    (insert_doctor_note dbNoAssign 1 exNote).2 = true :=
  (C1_insert_note dbNoAssign 1 exNote).1.mpr (by decide)

/-- Claim C2: for a doctor identity d distinct from the symptom's owning
patient, the symptoms SELECT predicate grants d access iff an Assignment
row links d to the owner and d holds the doctor role; once the Assignment
rows for that (patient, doctor) pair are removed the predicate denies d, so
a subsequent read returns no such row. -/
theorem C2_doctor_visibility (db : DB) (d : Nat) (s : Symptom)
    (hne : d ≠ s.patient_id) :
    (symptoms_select db d s = true ↔
      ((∃ a ∈ db.assignments, a.patient_id = s.patient_id ∧ a.doctor_id = d) ∧
        has_role db d .doctor = true)) ∧
    symptoms_select (remove_assignment db s.patient_id d) d s = false ∧
    s ∉ select_symptoms (remove_assignment db s.patient_id d) d := by
  have hiff : ∀ db2 : DB, symptoms_select db2 d s = true ↔
      ((∃ a ∈ db2.assignments, a.patient_id = s.patient_id ∧ a.doctor_id = d) ∧
        has_role db2 d .doctor = true) := by
    intro db2
    rw [symptoms_select_iff]
    constructor
    · rintro (h | ⟨hr, ha⟩)
      · exact absurd h hne
      · exact ⟨ha, hr⟩
    · rintro ⟨ha, hr⟩
      exact Or.inr ⟨hr, ha⟩
  have hgone : symptoms_select (remove_assignment db s.patient_id d) d s = false := by
    rw [Bool.eq_false_iff]
    intro htrue
    rcases (hiff _).mp htrue with ⟨⟨a, hmem, hpa, hda⟩, _⟩
    have := (List.mem_filter.mp hmem).2
    simp [hpa, hda] at this
  refine ⟨hiff db, hgone, ?_⟩
  intro hmem
  have := (List.mem_filter.mp hmem).2
  rw [hgone] at this
  exact Bool.false_ne_true this

/-- Claim C2, witness: in `dbAssigned` doctor 1 is assigned to patient 2,
so the SELECT predicate grants doctor 1 access to `exSym`, and after the
assignment is removed it denies. -/
theorem C2_doctor_visibility_witness :
    symptoms_select dbAssigned 1 exSym = true ∧
    symptoms_select (remove_assignment dbAssigned exSym.patient_id 1) 1 exSym = false :=
  ⟨(C2_doctor_visibility dbAssigned 1 exSym (by decide)).1.mpr (by decide),
   (C2_doctor_visibility dbAssigned 1 exSym (by decide)).2.1⟩

/-- Claim C3: `has_role(I, R)` is true iff a RoleGrant row with exactly
that (identity, role) pair exists, and its value is unchanged between any
two database states that agree on whether such a row exists — independent
of all other RoleGrant rows. -/
theorem C3_has_role_exact (db : DB) (uid : Nat) (r : AppRole) :
    (has_role db uid r = true ↔
      ∃ g ∈ db.user_roles, g.user_id = uid ∧ g.role = r) ∧
    (∀ db2 : DB,
      ((∃ g ∈ db.user_roles, g.user_id = uid ∧ g.role = r) ↔
        (∃ g ∈ db2.user_roles, g.user_id = uid ∧ g.role = r)) →
      has_role db uid r = has_role db2 uid r) := by
  refine ⟨has_role_iff db uid r, ?_⟩
  intro db2 hagree
  rw [Bool.eq_iff_iff, has_role_iff, has_role_iff]
  exact hagree

/-- Claim C3, witness: two concrete states that both hold a (1, doctor)
grant but differ in every other row give the same `has_role` answer. -/
theorem C3_has_role_exact_witness :
    has_role dbNoAssign 1 .doctor = has_role dbOtherGrants 1 .doctor :=
  (C3_has_role_exact dbNoAssign 1 .doctor).2 dbOtherGrants (by decide)

/-- Claim C4, counterexample: identity 1 holds the patient role (and also
the doctor role) and symptom `exSym` is owned by the different patient 2,
yet the SELECT predicate grants 1 access to `exSym` because 1 is an
assigned doctor — contradicting the claim that all three predicates deny a
patient identity access to another patient's row regardless of which roles
it holds. -/
theorem C4_counterexample :
    has_role dbAssigned 1 .patient = true ∧
    exSym.patient_id ≠ 1 ∧
    symptoms_select dbAssigned 1 exSym = true := by
  decide

/-- Claim C4, amended: a patient identity p is always granted select,
update and delete on the Symptom rows it owns; on a row owned by a
different patient, update and delete always deny p, and select denies p
unless p holds the doctor role and an Assignment links p to the row's
owner. -/
theorem C4_patient_ownership (db : DB) (p : Nat) (s : Symptom) :
    (s.patient_id = p →
      (symptoms_select db p s = true ∧ symptoms_update p s = true ∧
        symptoms_delete p s = true)) ∧
    (s.patient_id ≠ p →
      (symptoms_update p s = false ∧ symptoms_delete p s = false ∧
        (symptoms_select db p s = true ↔
          (has_role db p .doctor = true ∧
            ∃ a ∈ db.assignments,
              a.patient_id = s.patient_id ∧ a.doctor_id = p)))) := by
  constructor
  · intro hown
    refine ⟨?_, ?_, ?_⟩
    · rw [symptoms_select_iff]; exact Or.inl hown.symm
    · simp [symptoms_update, hown]
    · simp [symptoms_delete, hown]
  · intro hne
    have hne' : p ≠ s.patient_id := fun h => hne h.symm
    refine ⟨?_, ?_, ?_⟩
    · simp [symptoms_update, hne']
    · simp [symptoms_delete, hne']
    · rw [symptoms_select_iff]
      constructor
      · rintro (h | h)
        · exact absurd h hne'
        · exact h
      · exact Or.inr
/-- Claim C4, witness: patient 2 owns `exSym`, so all three predicates
grant it access in `dbAssigned`; identity 3 holds no role and has no
assignment, so select denies it. -/
theorem C4_patient_ownership_witness :
    (symptoms_select dbAssigned 2 exSym = true ∧
      symptoms_update 2 exSym = true ∧ symptoms_delete 2 exSym = true) ∧
    symptoms_update 3 exSym = false := by
  refine ⟨(C4_patient_ownership dbAssigned 2 exSym).1 (by decide), ?_⟩
  exact ((C4_patient_ownership dbAssigned 3 exSym).2 (by decide)).1

/-- Claim C5: a Message SELECT by identity u returns exactly the message
rows in which u is the sender or the receiver; an identity t that is
neither sender nor receiver of a row never receives that row. -/
theorem C5_message_visibility (db : DB) (u : Nat) :
    (∀ m : Message, m ∈ select_messages db u ↔
      (m ∈ db.messages ∧ (u = m.sender_id ∨ u = m.receiver_id))) ∧
    (∀ t : Nat, ∀ m : Message,
      t ≠ m.sender_id → t ≠ m.receiver_id → m ∉ select_messages db t) := by
  have hmem : ∀ v : Nat, ∀ m : Message, m ∈ select_messages db v ↔
      (m ∈ db.messages ∧ (v = m.sender_id ∨ v = m.receiver_id)) := by
    intro v m
    simp [select_messages, List.mem_filter, messages_select, Bool.or_eq_true,
      beq_iff_eq]
  refine ⟨hmem u, ?_⟩
  intro t m hs hr hin
  rcases ((hmem t m).mp hin).2 with h | h
  · exact hs h
  · exact hr h

/-- Claim C5, witness: identity 3 is neither the sender nor the receiver
of `exMsg`, so the select on `dbMsg` returns it no such row. -/
theorem C5_message_visibility_witness : exMsg ∉ select_messages dbMsg 3 :=
  (C5_message_visibility dbMsg 3).2 3 exMsg (by decide) (by decide)

/-- Claim C6, counterexample: the update of `exMsg` to `exMsgEdited` by its
receiver 2 is permitted by the messages UPDATE policy, yet it changes the
content field — contradicting the claim that a permitted update by the
receiver can change only the read flag. -/
theorem C6_counterexample :
    messages_update 2 exMsg exMsgEdited = true ∧
    exMsgEdited.content ≠ exMsg.content := by
  decide

/-- Claim C6, amended: an update taking row `oldRow` to row `newRow` by
identity u is permitted iff u is the receiver of `oldRow` and of `newRow`;
the policy places no constraint on the other fields, so a permitted update
may change any field that keeps u as the receiver (the app in practice only
toggles the read flag). -/
theorem C6_message_update (u : Nat) (oldRow newRow : Message) :
    messages_update u oldRow newRow = true ↔
      (u = oldRow.receiver_id ∧ u = newRow.receiver_id) := by
  simp [messages_update, Bool.and_eq_true, beq_iff_eq]

/-- Claim C7: the signup path's `profiles` insert passes its RLS policy,
but the `user_roles` insert is denied — `user_roles` has row-level
security enabled and no INSERT policy, so the RoleGrant row is never
created (and `Auth.tsx` ignores the returned error). -/
theorem C7_signup_role_grant_denied (uid gid : Nat) (name : String)
    (r : AppRole) :
    (signup_inserts uid name r gid).1 = true ∧
    (signup_inserts uid name r gid).2 = false := by
  simp [signup_inserts, profiles_insert, user_roles_insert]

/-- Claim C8: the lookup filter applied to the static 8-entry list returns
the full list unchanged for the empty query and any whitespace-only query;
for a query whose trim is non-empty it returns exactly the entries whose
name, description, or some keyword contains the query as a case-insensitive
substring; query "itchy" returns exactly the entries whose keyword set
contains "itchy", and "RASH" matches (only) the entry named "Rash". -/
theorem C8_symptom_lookup :
    symptomDatabase.length = 8 ∧
    handleSearch "" = symptomDatabase ∧
    (∀ t : String, js_trim t = "" → handleSearch t = symptomDatabase) ∧
    (∀ t : String, js_trim t ≠ "" → ∀ s : SymptomInfo,
      (s ∈ handleSearch t ↔
        (s ∈ symptomDatabase ∧ symptom_matches (js_to_lower t) s = true))) ∧
    handleSearch "itchy" =
      symptomDatabase.filter (fun s => s.keywords.contains "itchy") ∧
    (handleSearch "RASH").map (fun s => s.name) = ["Rash"] := by
  refine ⟨by decide, by decide, ?_, ?_, by decide, by decide⟩
  · intro t h
    simp [handleSearch, h]
  · intro t h s
    simp [handleSearch, h, List.mem_filter]

/-- Claim C8, witness: the Rash entry is returned for the query "itchy",
and a whitespace-only query returns the whole list. -/
theorem C8_symptom_lookup_witness :
    rashInfo ∈ handleSearch "itchy" ∧ handleSearch "   " = symptomDatabase :=
  ⟨(C8_symptom_lookup.2.2.2.1 "itchy" (by decide) rashInfo).mpr (by decide),
   C8_symptom_lookup.2.2.1 "   " (by decide)⟩

/-- Claim C9: the subscription callback appends a delivered INSERT event's
row iff its sender/receiver pair matches the open conversation (user to
selected doctor or vice versa); a matching row is always appended — the
list grows by one and the row's multiplicity increases even when it is
already present — and a non-matching row leaves the list unchanged. -/
theorem C9_subscription_append (uid doc : Nat) (prev : List Message)
    (m : Message) :
    (conversation_match uid doc m = true ↔
      ((m.sender_id = uid ∧ m.receiver_id = doc) ∨
        (m.sender_id = doc ∧ m.receiver_id = uid))) ∧
    (conversation_match uid doc m = true →
      (on_message_insert uid doc prev m = prev ++ [m] ∧
        (on_message_insert uid doc prev m).length = prev.length + 1 ∧
        (on_message_insert uid doc prev m).count m = prev.count m + 1)) ∧
    (conversation_match uid doc m = false →
      on_message_insert uid doc prev m = prev) := by
  refine ⟨?_, ?_, ?_⟩
  · simp [conversation_match, Bool.or_eq_true, Bool.and_eq_true, beq_iff_eq]
  · intro h
    refine ⟨by simp [on_message_insert, h], ?_, ?_⟩
    · simp [on_message_insert, h]
    · simp [on_message_insert, h, List.count_append]
  · intro h
    simp [on_message_insert, h]

/-- Claim C9, witness: the event row `exMsg` (sender 1, receiver 2) matches
the conversation between user 1 and doctor 2, and is appended even though
the list already contains it — no deduplication. -/
theorem C9_subscription_append_witness :
    on_message_insert 1 2 [exMsg] exMsg = [exMsg, exMsg] := by
  have h := ((C9_subscription_append 1 2 [exMsg] exMsg).2.1 (by decide)).1
  simpa using h

/-- Claim C10: the chat send operation inserts nothing and leaves the
message table unchanged when the trimmed input is empty or no doctor is
selected; otherwise it appends exactly one row whose content is the trimmed
input — hence non-empty — whose sender is the user and whose receiver is
the selected doctor, and that row passes the messages INSERT policy for the
sending user. -/
theorem C10_chat_send (uid : Nat) (sel : Option Nat) (t : String)
    (msgs : List Message) (fid tick : Nat) :
    (js_trim t = "" → handleSend uid sel t msgs fid tick = msgs) ∧
    (sel = none → handleSend uid sel t msgs fid tick = msgs) ∧
    (∀ d : Nat, sel = some d → js_trim t ≠ "" →
      ∃ m : Message,
        handleSend uid sel t msgs fid tick = msgs ++ [m] ∧
        m.content = js_trim t ∧ m.content ≠ "" ∧
        m.sender_id = uid ∧ m.receiver_id = d ∧
        messages_insert uid m = true) := by
  refine ⟨?_, ?_, ?_⟩
  · intro h
    simp [handleSend, h]
  · intro h
    subst h
    simp [handleSend]
  · intro d hd h
    subst hd
    refine ⟨{ id := fid, sender_id := uid, receiver_id := d,
              content := js_trim t, attachment_url := none,
              symptom_reference := none, read := false,
              created_at := tick }, ?_, rfl, h, rfl, rfl, ?_⟩
    · simp [handleSend, h]
    · simp [messages_insert]

/-- Claim C10, witness: sending " hi " to doctor 2 appends one row with
content "hi". -/
theorem C10_chat_send_witness :
    ∃ m : Message,
      handleSend 1 (some 2) " hi " [] 7 9 = [] ++ [m] ∧
      m.content = js_trim " hi " ∧ m.content ≠ "" ∧
      m.sender_id = 1 ∧ m.receiver_id = 2 ∧
      messages_insert 1 m = true :=
  (C10_chat_send 1 (some 2) " hi " [] 7 9).2.2 2 rfl (by decide)
